import Mathlib

/-!
Verification development for the municipal complaint-intake application
(single source file `app.py`).  The data model and the operations below are
shallow embeddings of the Python functions of that file: the Postgres tables
become lists of records, the SERIAL id sequence becomes an explicit counter,
ambient wall-clock reads (`datetime.now()`) become explicit parameters, and
fallible statements (uniqueness violations, KeyError, text-encoding failures
during PDF generation) become `Except`-valued results.
-/

/-- Row of the `denuncias` table created by `init_db`
(columns: id SERIAL, external_id TEXT UNIQUE, created_at, origem, tipo, rua,
numero, bairro, zona, latitude, longitude, descricao, quem_recebeu, status). -/
structure DenunciaRow where
  id : Nat
  external_id : String
  created_at : String
  origem : String
  tipo : String
  rua : String
  numero : String
  bairro : String
  zona : String
  latitude : String
  longitude : String
  descricao : String
  quem_recebeu : String
  status : String
deriving DecidableEq, Repr

/-- Modelled from the spec: the Recurrence child record
(id, complaint_id owning reference, created_at, source, description).
The `recurrences` table is described in the spec data model but `init_db`
in the source creates no such table; we model it from the spec wording. -/
structure Recurrence where
  id : Nat
  complaint_id : Nat
  created_at : String
  source : String
  description : String
deriving DecidableEq, Repr

/-- Row of the `users` table created by `init_db`
(username TEXT PRIMARY KEY, password, full_name, is_admin). -/
structure UserRow where
  username : String
  password : String
  full_name : String
  is_admin : Bool
deriving DecidableEq, Repr

/-- The persistent database state: the `denuncias` and `users` tables from
`init_db`, the state of the SERIAL sequence backing `denuncias.id`
(`nextId` is the id the next successful INSERT receives), and the
spec-modelled `recurrences` table. -/
structure DB where
  denuncias : List DenunciaRow
  nextId : Nat
  recurrences : List Recurrence
  users : List UserRow
deriving DecidableEq, Repr

/-- The Python dict handed to `insert_denuncia` and `create_pdf_from_record`.
All keys are plain strings except `status`, which the insert path reads with
`record.get(..., default)`; `none` models an absent key. -/
structure DenunciaRecord where
  external_id : String
  created_at : String
  origem : String
  tipo : String
  rua : String
  numero : String
  bairro : String
  zona : String
  latitude : String
  longitude : String
  descricao : String
  quem_recebeu : String
  status : Option String
deriving DecidableEq, Repr

/-! ### Decimal formatting, embedding the f-string `f"{next_id:04d}/{year}"` -/

/-- One decimal digit as a character. -/
def digitChar (n : Nat) : Char :=
  if n = 0 then '0' else if n = 1 then '1' else if n = 2 then '2'
  else if n = 3 then '3' else if n = 4 then '4' else if n = 5 then '5'
  else if n = 6 then '6' else if n = 7 then '7' else if n = 8 then '8' else '9'

/-- Decimal digits of `n`, most significant first; `fuel` bounds the
recursion depth and any `fuel > n` is enough. -/
def toDigitsAux : Nat → Nat → List Char
  | 0, _ => []
  | fuel + 1, n =>
    if n < 10 then [digitChar n]
    else toDigitsAux fuel (n / 10) ++ [digitChar (n % 10)]

/-- Decimal digit string of `n` (what Python `str`/`d`-formatting prints). -/
def toDigits (n : Nat) : List Char := toDigitsAux (n + 1) n

/-- Left-pad with zeros to a minimum width of 4, the `04d` format:
shorter numbers are padded, longer numbers keep all their digits. -/
def pad4To (l : List Char) : List Char := List.replicate (4 - l.length) '0' ++ l

/-- Membership test for the digit characters. -/
def isDig (c : Char) : Bool :=
  ['0', '1', '2', '3', '4', '5', '6', '7', '8', '9'].contains c

/-- Decides the shape four digits, a slash, four digits — the pattern the
spec writes for external ids. -/
def matchesExtId (s : String) : Bool :=
  match s.data with
  | [d1, d2, d3, d4, sl, y1, y2, y3, y4] =>
    isDig d1 && isDig d2 && isDig d3 && isDig d4 && (sl == '/') &&
    isDig y1 && isDig y2 && isDig y3 && isDig y4
  | _ => false

/-! ### Complaint repository operations (`app.py` lines 145-223) -/

/-- `SELECT COALESCE(MAX(id), 0) FROM denuncias`. -/
def maxIdOf (db : DB) : Nat := (db.denuncias.map DenunciaRow.id).foldl Nat.max 0

/-- `generate_external_id` (src lines 145-155): reads `COALESCE(MAX(id),0)`,
adds one and formats `f"{next_id:04d}/{year}"`.  The current year read from
`datetime.now()` is passed explicitly as `year`. -/
def generate_external_id (db : DB) (year : Nat) : String :=
  let max_id := maxIdOf db
  let next_id := max_id + 1
  String.mk (pad4To (toDigits next_id) ++ '/' :: toDigits year)

/-- The row a successful INSERT of `record` produces: the id comes from the
SERIAL sequence, the status column receives `record.get('status',
'Pendente')`, every other column the corresponding dict value. -/
def insertedRow (db : DB) (record : DenunciaRecord) : DenunciaRow :=
  { id := db.nextId
    external_id := record.external_id
    created_at := record.created_at
    origem := record.origem
    tipo := record.tipo
    rua := record.rua
    numero := record.numero
    bairro := record.bairro
    zona := record.zona
    latitude := record.latitude
    longitude := record.longitude
    descricao := record.descricao
    quem_recebeu := record.quem_recebeu
    status := record.status.getD "Pendente" }

/-- `insert_denuncia` (src lines 157-172): INSERT of all non-id columns; the
id comes from the SERIAL sequence; the UNIQUE constraint on `external_id`
raises `IntegrityError` (modelled as `Except.error`) when violated. -/
def insert_denuncia (db : DB) (record : DenunciaRecord) : Except Unit DB :=
  if db.denuncias.any (fun r => r.external_id == record.external_id) then
    Except.error ()
  else
    Except.ok { db with
      denuncias := db.denuncias ++ [insertedRow db record]
      nextId := db.nextId + 1 }

/-- The record dict built by the `handle_form_submit` callback
(src lines 285-302); it always carries the key `status` with value
`Pendente`. -/
def handle_form_submit_record (external_id created_at origem tipo rua numero
    bairro zona lat lon descricao quem_recebeu : String) : DenunciaRecord :=
  { external_id := external_id
    created_at := created_at
    origem := origem
    tipo := tipo
    rua := rua
    numero := numero
    bairro := bairro
    zona := zona
    latitude := lat
    longitude := lon
    descricao := descricao
    quem_recebeu := quem_recebeu
    status := some "Pendente" }

/-- `fetch_denuncia_by_id` (src lines 180-195): `SELECT * WHERE id = %s`,
first matching row or none. -/
def fetch_denuncia_by_id (db : DB) (id_ : Nat) : Option DenunciaRow :=
  db.denuncias.find? (fun r => r.id == id_)

/-- `update_denuncia_status` (src lines 197-203):
`UPDATE denuncias SET status = %s WHERE id = %s`. -/
def update_denuncia_status (db : DB) (id_ : Nat) (status : String) : DB :=
  { db with
    denuncias := db.denuncias.map fun r =>
      if r.id = id_ then { r with status := status } else r }

/-- Modelled from the spec: the foreign key from `recurrences` to
`denuncias` with cascading delete.  The source schema has no recurrences
table, so the storage-layer cascade that removes the child rows of a deleted
complaint is modelled from the spec wording. -/
def cascadeRecurrences (recs : List Recurrence) (complaintId : Nat) : List Recurrence :=
  recs.filter (fun rec => !(rec.complaint_id == complaintId))

/-- `delete_denuncia` (src lines 205-211): `DELETE FROM denuncias WHERE
id = %s`; the removal of child recurrence rows is the spec-modelled cascade
of `cascadeRecurrences`. -/
def delete_denuncia (db : DB) (id_ : Nat) : DB :=
  { db with
    denuncias := db.denuncias.filter (fun r => !(r.id == id_))
    recurrences := cascadeRecurrences db.recurrences id_ }

/-- The dict of editable columns built by the edit form and passed to
`update_denuncia_full`. -/
structure UpdateRow where
  origem : String
  tipo : String
  rua : String
  numero : String
  bairro : String
  zona : String
  latitude : String
  longitude : String
  descricao : String
  quem_recebeu : String
  status : String
deriving DecidableEq, Repr

/-- The per-row effect of `update_denuncia_full` on the matching row:
the eleven listed columns are replaced, id, external_id and created_at
are untouched. -/
def applyFullUpdate (row : UpdateRow) (r : DenunciaRow) : DenunciaRow :=
  { r with
    origem := row.origem
    tipo := row.tipo
    rua := row.rua
    numero := row.numero
    bairro := row.bairro
    zona := row.zona
    latitude := row.latitude
    longitude := row.longitude
    descricao := row.descricao
    quem_recebeu := row.quem_recebeu
    status := row.status }

/-- The per-row effect of `update_denuncia_status` on the matching row. -/
def setStatusRow (status : String) (r : DenunciaRow) : DenunciaRow :=
  { r with status := status }

/-- `update_denuncia_full` (src lines 213-223): `UPDATE denuncias SET
origem=.., tipo=.., rua=.., numero=.., bairro=.., zona=.., latitude=..,
longitude=.., descricao=.., quem_recebeu=.., status=.. WHERE id=%s`. -/
def update_denuncia_full (db : DB) (id_ : Nat) (row : UpdateRow) : DB :=
  { db with
    denuncias := db.denuncias.map fun r =>
      if r.id = id_ then applyFullUpdate row r else r }

/-! ### Credential store (`app.py` lines 99-141)

`hash_password` is `hashlib.sha256(password.encode('utf-8')).hexdigest()`;
we embed UTF-8 encoding and SHA-256 (FIPS 180-4) over `Nat` bytes/words. -/

/-- UTF-8 encoding of one character, as byte values. -/
def utf8EncodeChar (c : Char) : List Nat :=
  let n := c.toNat
  if n < 128 then [n]
  else if n < 2048 then [192 + n / 64, 128 + n % 64]
  else if n < 65536 then [224 + n / 4096, 128 + n / 64 % 64, 128 + n % 64]
  else [240 + n / 262144, 128 + n / 4096 % 64, 128 + n / 64 % 64, 128 + n % 64]

/-- `s.encode('utf-8')` as a list of byte values. -/
def utf8Encode (s : String) : List Nat := s.data.flatMap utf8EncodeChar

/-- Right rotation of a 32-bit word. -/
def rotr32 (k x : Nat) : Nat := x / 2 ^ k + x % 2 ^ k * 2 ^ (32 - k)

/-- SHA-256 big sigma 0. -/
def bigS0 (x : Nat) : Nat := rotr32 2 x ^^^ rotr32 13 x ^^^ rotr32 22 x

/-- SHA-256 big sigma 1. -/
def bigS1 (x : Nat) : Nat := rotr32 6 x ^^^ rotr32 11 x ^^^ rotr32 25 x

/-- SHA-256 small sigma 0. -/
def smallS0 (x : Nat) : Nat := rotr32 7 x ^^^ rotr32 18 x ^^^ x / 8

/-- SHA-256 small sigma 1. -/
def smallS1 (x : Nat) : Nat := rotr32 17 x ^^^ rotr32 19 x ^^^ x / 1024

/-- SHA-256 choice function. -/
def shaCh (x y z : Nat) : Nat := (x &&& y) ^^^ ((4294967295 - x) &&& z)

/-- SHA-256 majority function. -/
def shaMaj (x y z : Nat) : Nat := (x &&& y) ^^^ (x &&& z) ^^^ (y &&& z)

/-- The 64 SHA-256 round constants of FIPS 180-4, in decimal. -/
def k256 : List Nat :=
  [1116352408, 1899447441, 3049323471, 3921009573,
   961987163, 1508970993, 2453635748, 2870763221,
   3624381080, 310598401, 607225278, 1426881987,
   1925078388, 2162078206, 2614888103, 3248222580,
   3835390401, 4022224774, 264347078, 604807628,
   770255983, 1249150122, 1555081692, 1996064986,
   2554220882, 2821834349, 2952996808, 3210313671,
   3336571891, 3584528711, 113926993, 338241895,
   666307205, 773529912, 1294757372, 1396182291,
   1695183700, 1986661051, 2177026350, 2456956037,
   2730485921, 2820302411, 3259730800, 3345764771,
   3516065817, 3600352804, 4094571909, 275423344,
   430227734, 506948616, 659060556, 883997877,
   958139571, 1322822218, 1537002063, 1747873779,
   1955562222, 2024104815, 2227730452, 2361852424,
   2428436474, 2756734187, 3204031479, 3329325298]

/-- The eight SHA-256 initial hash words of FIPS 180-4, in decimal. -/
def h0init : List Nat :=
  [1779033703, 3144134277, 1013904242, 2773480762,
   1359893119, 2600822924, 528734635, 1541459225]

/-- SHA-256 message padding: append 0x80, zeros up to 56 mod 64, then the
bit length as 8 big-endian bytes. -/
def padMsg (msg : List Nat) : List Nat :=
  let bitLen := msg.length * 8
  let padZeros := (119 - msg.length % 64) % 64
  msg ++ [128] ++ List.replicate padZeros 0 ++
    (List.range 8).map (fun i => bitLen / 2 ^ (8 * (7 - i)) % 256)

/-- Split a list into chunks of `n` elements (`fuel`-bounded recursion;
`fuel = l.length` is always enough). -/
def chunksAux (fuel : Nat) (n : Nat) : List α → List (List α)
  | [] => []
  | l =>
    match fuel with
    | 0 => []
    | fuel + 1 => l.take n :: chunksAux fuel n (l.drop n)

/-- Split a list into chunks of `n` elements. -/
def chunksOf (n : Nat) (l : List α) : List (List α) := chunksAux l.length n l

/-- Big-endian 4-byte groups to 32-bit words. -/
def bytesToWords (bytes : List Nat) : List Nat :=
  (chunksOf 4 bytes).map fun b =>
    b.getD 0 0 * 16777216 + b.getD 1 0 * 65536 + b.getD 2 0 * 256 + b.getD 3 0

/-- Extend the 16 message-schedule words to 64. -/
def extendW (w : List Nat) : List Nat :=
  (List.range 48).foldl
    (fun w _ =>
      let i := w.length
      let s0 := smallS0 (w.getD (i - 15) 0)
      let s1 := smallS1 (w.getD (i - 2) 0)
      w ++ [(w.getD (i - 16) 0 + s0 + w.getD (i - 7) 0 + s1) % 4294967296])
    w

/-- One SHA-256 compression round on the eight-word working state. -/
def shaStep (w : List Nat) (st : List Nat) (i : Nat) : List Nat :=
  match st with
  | [a, b, c, d, e, f, g, h] =>
    let t1 := (h + bigS1 e + shaCh e f g + k256.getD i 0 + w.getD i 0) % 4294967296
    let t2 := (bigS0 a + shaMaj a b c) % 4294967296
    [(t1 + t2) % 4294967296, a, b, c, (d + t1) % 4294967296, e, f, g]
  | other => other

/-- SHA-256 compression of one 64-byte block into the running hash. -/
def shaCompress (hs : List Nat) (block : List Nat) : List Nat :=
  let w := extendW (bytesToWords block)
  let st := (List.range 64).foldl (shaStep w) hs
  hs.zipWith (fun x y => (x + y) % 4294967296) st

/-- SHA-256 of a byte list, as the eight final 32-bit hash words. -/
def sha256 (msg : List Nat) : List Nat :=
  (chunksOf 64 (padMsg msg)).foldl shaCompress h0init

/-- One hex digit, lowercase as `hexdigest` prints. -/
def hexChar (n : Nat) : Char :=
  if n < 10 then digitChar n
  else if n = 10 then 'a' else if n = 11 then 'b' else if n = 12 then 'c'
  else if n = 13 then 'd' else if n = 14 then 'e' else 'f'

/-- A 32-bit word as 8 hex characters. -/
def hex8 (x : Nat) : List Char := (List.range 8).map fun i => hexChar (x / 16 ^ (7 - i) % 16)

/-- Hex digest of SHA-256 of a byte list. -/
def sha256hex (msg : List Nat) : String := String.mk ((sha256 msg).flatMap hex8)

/-- `hash_password` (src lines 99-100):
`hashlib.sha256(password.encode('utf-8')).hexdigest()`. -/
def hash_password (password : String) : String := sha256hex (utf8Encode password)

/-- `add_user` (src lines 104-118): hashes the password, INSERTs into
`users`; the primary key on `username` raises `IntegrityError` on a
duplicate, which the function catches, rolls back and reports as `false`;
otherwise the new row is committed and the result is `true`.  New users are
created with `is_admin = false`. -/
def add_user (db : DB) (username password full_name : String) : DB × Bool :=
  let pass_hash := hash_password password
  if db.users.any (fun u => u.username == username) then
    (db, false)
  else
    ({ db with users := db.users ++
        [{ username := username, password := pass_hash
           full_name := full_name, is_admin := false }] }, true)

/-! ### Document renderer (`app.py` lines 226-281)

`create_pdf_from_record` is embedded as the ordered sequence of drawing
commands it issues to the FPDF object.  The wall clock ambient to the
process is passed explicitly as `now`; the source renderer makes no call to
`datetime`, so the parameter is unused.  The latin-1 character set of the
built-in Arial font cannot encode code points above 255: writing such text
raises, which we model as `Except.error`; likewise a record dict without
the `status` key raises `KeyError`.  Automatic page breaks caused by text
overflow are not modelled; page counts are the explicitly issued
`add_page` commands. -/

/-- One drawing command issued to the FPDF object. -/
inductive PdfItem where
  | addPage : PdfItem
  | setAutoPageBreak : Bool → Nat → PdfItem
  | setFont : String → String → Nat → PdfItem
  | cell : String → PdfItem
  | multiCell : String → PdfItem
  | lineBreak : Nat → PdfItem
  | setFillColor : Nat → Nat → Nat → PdfItem
deriving DecidableEq, Repr

/-- The text content a command writes into the document. -/
def itemText : PdfItem → String
  | PdfItem.cell t => t
  | PdfItem.multiCell t => t
  | _ => ""

/-- Is the command an `add_page`. -/
def isAddPage : PdfItem → Bool
  | PdfItem.addPage => true
  | _ => false

/-- A character the latin-1 single-byte set of the core font can encode. -/
def latin1Char (c : Char) : Bool := c.toNat < 256

/-- A string the latin-1 single-byte set of the core font can encode. -/
def latin1String (s : String) : Bool := s.data.all latin1Char

/-- The `header` method of the `PDF` subclass (src lines 227-229), run by
`add_page`. -/
def pdfHeaderItems : List PdfItem :=
  [PdfItem.setFont "Arial" "B" 15,
   PdfItem.cell "URB Fiscalização - Ordem de Serviço"]

/-- The command sequence issued by `create_pdf_from_record` (src lines
236-279) for a record whose `status` value is `st`. -/
def pdfItems (record : DenunciaRecord) (st : String) : List PdfItem :=
  [PdfItem.addPage] ++ pdfHeaderItems ++
  [PdfItem.setAutoPageBreak true 20,
   PdfItem.setFont "Arial" "B" 16,
   PdfItem.cell ("Ordem de Serviço Nº " ++ record.external_id),
   PdfItem.lineBreak 2,
   PdfItem.setFont "Arial" "" 11,
   PdfItem.multiCell
     ("\nData/Hora: " ++ record.created_at ++
      "\nOrigem: " ++ record.origem ++
      "\nTipo: " ++ record.tipo ++
      "\nEndereço: " ++ record.rua ++ ", " ++ record.numero ++
      "\nBairro/Zona: " ++ record.bairro ++ " / " ++ record.zona ++
      "\nLatitude/Longitude: " ++ record.latitude ++ " / " ++ record.longitude ++
      "\nQuem recebeu: " ++ record.quem_recebeu ++
      "\nStatus: " ++ st ++ "\n"),
   PdfItem.lineBreak 4,
   PdfItem.setFont "Arial" "B" 12,
   PdfItem.cell "DESCRIÇÃO DA ORDEM DE SERVIÇO:",
   PdfItem.setFont "Arial" "" 10,
   PdfItem.setFillColor 240 240 240,
   PdfItem.multiCell (if record.descricao = "" then "Sem descrição." else record.descricao),
   PdfItem.lineBreak 6,
   PdfItem.setFont "Arial" "B" 12,
   PdfItem.cell "OBSERVAÇÕES DE CAMPO / AÇÕES REALIZADAS:",
   PdfItem.multiCell (String.mk (List.replicate 100 ' ')),
   PdfItem.lineBreak 1]

/-- `create_pdf_from_record` (src lines 236-281): emits the command
sequence and produces the byte stream, raising if some written text cannot
be encoded by the latin-1 core font or if the dict has no `status` key. -/
def create_pdf_from_record (now : Nat) (record : DenunciaRecord) :
    Except Unit (List PdfItem) :=
  match record.status with
  | none => Except.error ()
  | some st =>
    let items := pdfItems record st
    if items.all (fun i => latin1String (itemText i)) then Except.ok items
    else Except.error ()

/-- Number of pages of a rendering result: the issued `add_page` commands;
a raised exception yields no document. -/
def pdfPages : Except Unit (List PdfItem) → Nat
  | Except.ok items => items.countP isAddPage
  | Except.error _ => 0

/-! ### The Historico page: listing, filter mask, batch actions
(`app.py` lines 174-178 and 467-525) -/

/-- `fetch_all_denuncias` (src lines 174-178):
`SELECT * FROM denuncias ORDER BY id DESC`. -/
def newestFirst (a b : DenunciaRow) : Prop := b.id ≤ a.id

instance : DecidableRel newestFirst := fun a b => Nat.decLe b.id a.id

instance : IsTotal DenunciaRow newestFirst :=
  ⟨fun a b => (Nat.le_total b.id a.id).elim Or.inl Or.inr⟩

instance : IsTrans DenunciaRow newestFirst :=
  ⟨fun _ _ _ hab hbc => Nat.le_trans hbc hab⟩

/-- `fetch_all_denuncias` (src lines 174-178). -/
def fetch_all_denuncias (db : DB) : List DenunciaRow :=
  db.denuncias.insertionSort newestFirst

/-- Matching of one pattern character against one subject character under
Python `re`: the dot metacharacter matches anything but a newline, any
other character in the supported fragment matches itself. -/
def pyRegexCharMatch (p c : Char) : Bool :=
  if p = '.' then c != '\n' else p == c

/-- Does the pattern match the subject starting at its head. -/
def pyRegexMatchAt : List Char → List Char → Bool
  | [], _ => true
  | _ :: _, [] => false
  | p :: ps, c :: cs => pyRegexCharMatch p c && pyRegexMatchAt ps cs

/-- `Series.str.contains(pat, na=False)` as the source calls it, with the
pandas default `regex=True`, i.e. Python `re.search`: the pattern may match
at any position.  Faithful on the pattern fragment made of ordinary
characters and the dot metacharacter. -/
def strContains (s : String) (pat : String) : Bool :=
  (List.range (s.data.length + 1)).any fun i => pyRegexMatchAt pat.data (s.data.drop i)

/-- Stated from the claim wording, for comparison only: plain substring
containment of `needle` in `hay`. -/
def specSubstring (needle hay : String) : Bool :=
  (List.range (hay.data.length + 1)).any fun i => needle.data.isPrefixOf (hay.data.drop i)

/-- Pointwise AND of two boolean series. -/
def seriesAnd (xs ys : List Bool) : List Bool := List.zipWith and xs ys

/-- The filter mask built on the Historico page (src lines 486-492):
start all-true, then AND in each supplied filter; an empty text input or
the `Todos` status choice imposes no constraint. -/
def historicoMask (rows : List DenunciaRow) (q_ext q_status q_text : String) : List Bool :=
  let mask := rows.map fun _ => true
  let mask :=
    if q_ext ≠ "" then seriesAnd mask (rows.map fun r => strContains r.external_id q_ext)
    else mask
  let mask :=
    if q_status ≠ "" ∧ q_status ≠ "Todos" then
      seriesAnd mask (rows.map fun r => r.status == q_status)
    else mask
  let mask :=
    if q_text ≠ "" then seriesAnd mask (rows.map fun r => strContains r.descricao q_text)
    else mask
  mask

/-- `df[mask]`: keep the rows whose mask entry is true. -/
def selectByMask : List DenunciaRow → List Bool → List DenunciaRow
  | [], _ => []
  | _, [] => []
  | r :: rs, b :: bs => if b then r :: selectByMask rs bs else selectByMask rs bs

/-- The whole search of the Historico page: fetch all rows newest first,
build the mask from the three filter inputs, select. -/
def historicoSearch (db : DB) (q_ext q_status q_text : String) : List DenunciaRow :=
  selectByMask (fetch_all_denuncias db) (historicoMask (fetch_all_denuncias db) q_ext q_status q_text)

/-- The row predicate equivalent to the mask: the three filters are
independently optional (an absent one imposes no constraint) and
conjunctive. -/
def historicoPred (q_ext q_status q_text : String) (r : DenunciaRow) : Bool :=
  (if q_ext = "" then true else strContains r.external_id q_ext)
  && (if q_status = "" ∨ q_status = "Todos" then true else r.status == q_status)
  && (if q_text = "" then true else strContains r.descricao q_text)

/-! ### Concrete database states and records used in closed statements -/

/-- The database right after `init_db` on a fresh install, before the
bootstrap admin insert: no complaints, sequence at 1. -/
def emptyDB : DB := { denuncias := [], nextId := 1, recurrences := [], users := [] }

/-- A fully populated record as the intake form builds it, except that the
caller supplied the status value Concluída. -/
def recStatusConcluida : DenunciaRecord :=
  { external_id := "0001/2025", created_at := "2025-01-02 09:00:00"
    origem := "Telefone", tipo := "Urbana", rua := "Rua do Sol", numero := "10"
    bairro := "CENTENÁRIO", zona := "NORTE", latitude := "", longitude := ""
    descricao := "Lixo acumulado", quem_recebeu := "RAIANY NAYARA DE LIMA - 000.362"
    status := some "Concluída" }

/-- A record dict without the `status` key. -/
def recNoStatus : DenunciaRecord := { recStatusConcluida with status := none }

/-- The state after inserting `recNoStatus` into the empty database. -/
def dbAfterNoStatus : DB :=
  { emptyDB with
    denuncias := emptyDB.denuncias ++ [insertedRow emptyDB recNoStatus],
    nextId := emptyDB.nextId + 1 }

/-! ### Helper lemmas: decimal formatting -/

theorem isDig_digitChar (n : Nat) : isDig (digitChar n) = true := by
  unfold digitChar
  repeat' split
  all_goals decide

theorem toDigitsAux_digits :
    ∀ fuel n, n < fuel → ∀ c ∈ toDigitsAux fuel n, isDig c = true := by
  intro fuel
  induction fuel with
  | zero => intro n h; omega
  | succ fuel ih =>
    intro n h c hc
    unfold toDigitsAux at hc
    split at hc
    · simp only [List.mem_singleton] at hc
      subst hc
      exact isDig_digitChar n
    · rcases List.mem_append.mp hc with h1 | h2
      · exact ih (n / 10) (by omega) c h1
      · simp only [List.mem_singleton] at h2
        subst h2
        exact isDig_digitChar _

theorem toDigitsAux_len_le :
    ∀ fuel k n, n < fuel → n < 10 ^ (k + 1) → (toDigitsAux fuel n).length ≤ k + 1 := by
  intro fuel
  induction fuel with
  | zero => intro k n h; omega
  | succ fuel ih =>
    intro k n h hk
    unfold toDigitsAux
    split
    · simp
    · rename_i hge
      rw [List.length_append, List.length_singleton]
      cases k with
      | zero => omega
      | succ k =>
        have hd : n / 10 < 10 ^ (k + 1) := by
          rw [Nat.div_lt_iff_lt_mul (by omega)]
          calc n < 10 ^ (k + 1 + 1) := hk
          _ = 10 ^ (k + 1) * 10 := by rw [pow_succ]
        have := ih k (n / 10) (by omega) hd
        omega

theorem toDigitsAux_len_ge :
    ∀ fuel k n, n < fuel → 10 ^ k ≤ n → k + 1 ≤ (toDigitsAux fuel n).length := by
  intro fuel
  induction fuel with
  | zero => intro k n h; omega
  | succ fuel ih =>
    intro k n h hk
    unfold toDigitsAux
    split
    · rename_i hlt
      cases k with
      | zero => simp
      | succ k =>
        have : 10 ≤ 10 ^ (k + 1) := by
          calc 10 = 10 ^ 1 := (pow_one 10).symm
          _ ≤ 10 ^ (k + 1) := Nat.pow_le_pow_right (by omega) (by omega)
        omega
    · rename_i hge
      rw [List.length_append, List.length_singleton]
      cases k with
      | zero => omega
      | succ k =>
        have hdiv : 10 ^ k ≤ n / 10 := by
          rw [Nat.le_div_iff_mul_le (by omega)]
          calc 10 ^ k * 10 = 10 ^ (k + 1) := (pow_succ 10 k).symm
          _ ≤ n := hk
        have := ih k (n / 10) (by omega) hdiv
        omega

theorem toDigits_digits (n : Nat) : ∀ c ∈ toDigits n, isDig c = true :=
  toDigitsAux_digits (n + 1) n (Nat.lt_succ_self n)

theorem toDigits_len_le (k n : Nat) (h : n < 10 ^ (k + 1)) : (toDigits n).length ≤ k + 1 :=
  toDigitsAux_len_le (n + 1) k n (Nat.lt_succ_self n) h

theorem toDigits_len_ge (k n : Nat) (h : 10 ^ k ≤ n) : k + 1 ≤ (toDigits n).length :=
  toDigitsAux_len_ge (n + 1) k n (Nat.lt_succ_self n) h

theorem pad4To_length (l : List Char) (h : l.length ≤ 4) : (pad4To l).length = 4 := by
  unfold pad4To
  rw [List.length_append, List.length_replicate]
  omega

theorem pad4To_digits (l : List Char) (h : ∀ c ∈ l, isDig c = true) :
    ∀ c ∈ pad4To l, isDig c = true := by
  intro c hc
  unfold pad4To at hc
  rcases List.mem_append.mp hc with h1 | h2
  · rw [List.eq_of_mem_replicate h1]
    decide
  · exact h c h2

theorem matchesExtId_of (l1 l2 : List Char) (h1 : l1.length = 4) (h2 : l2.length = 4)
    (d1 : ∀ c ∈ l1, isDig c = true) (d2 : ∀ c ∈ l2, isDig c = true) :
    matchesExtId (String.mk (l1 ++ '/' :: l2)) = true := by
  rcases l1 with _ | ⟨a, _ | ⟨b, _ | ⟨c, _ | ⟨d, _ | ⟨x, l⟩⟩⟩⟩⟩ <;> simp only [List.length] at h1 <;>
    try omega
  rcases l2 with _ | ⟨e, _ | ⟨f, _ | ⟨g, _ | ⟨h, _ | ⟨y, m⟩⟩⟩⟩⟩ <;> simp only [List.length] at h2 <;>
    try omega
  simp only [matchesExtId, List.cons_append, List.nil_append]
  simp [d1 a (by simp), d1 b (by simp), d1 c (by simp), d1 d (by simp),
        d2 e (by simp), d2 f (by simp), d2 g (by simp), d2 h (by simp)]

/-! ### Helper lemmas: insertion and the id maximum -/

theorem insert_denuncia_ok_eq (db : DB) (record : DenunciaRecord) (db' : DB)
    (h : insert_denuncia db record = Except.ok db') :
    db' = { db with
            denuncias := db.denuncias ++ [insertedRow db record],
            nextId := db.nextId + 1 } := by
  unfold insert_denuncia at h
  split at h
  · simp at h
  · injection h with h
    exact h.symm

theorem foldl_max_le (l : List Nat) (a N : Nat) (ha : a ≤ N) (h : ∀ x ∈ l, x ≤ N) :
    l.foldl Nat.max a ≤ N := by
  induction l generalizing a with
  | nil => simpa using ha
  | cons x xs ih =>
    simp only [List.foldl_cons]
    exact ih (Nat.max a x) (Nat.max_le.mpr ⟨ha, h x (List.mem_cons_self x xs)⟩)
      (fun y hy => h y (List.mem_cons_of_mem x hy))

/-! ### Claim C1 -/

/-- C1, as stated, is false on the code: `insert_denuncia` persists the
status value supplied by the caller (here Concluída), it does not force
Pendente; the counterexample inserts a record carrying status Concluída
into the empty database and the persisted row has status Concluída. -/
theorem C1_counterexample :
    (insert_denuncia emptyDB recStatusConcluida).toOption.map
        (fun db => db.denuncias.map DenunciaRow.status) = some ["Concluída"]
    ∧ "Concluída" ≠ "Pendente" := by
  constructor
  · rfl
  · decide

/-- C1 (amended): the persisted status of a newly created complaint is the
status supplied in the record when the key is present, and Pendente only by
default when it is absent; the intake-form callback always supplies
Pendente, so rows created through the form path are persisted Pendente. -/
theorem C1_amended_status :
    ∀ (db : DB) (record : DenunciaRecord) (db' : DB),
      insert_denuncia db record = Except.ok db' →
      db'.denuncias.map DenunciaRow.status
        = db.denuncias.map DenunciaRow.status ++ [record.status.getD "Pendente"]
      ∧ ∀ eid ca o t ru nu ba zo la lo de qr,
          ((handle_form_submit_record eid ca o t ru nu ba zo la lo de qr).status.getD
            "Pendente") = "Pendente" := by
  intro db record db' h
  refine ⟨?_, fun _ _ _ _ _ _ _ _ _ _ _ _ => rfl⟩
  rw [insert_denuncia_ok_eq db record db' h]
  simp [insertedRow]

/-- Closed instance of `C1_amended_status`: inserting a record without a
status key into the empty database persists the default status Pendente. -/
theorem C1_witness :
    dbAfterNoStatus.denuncias.map DenunciaRow.status
      = emptyDB.denuncias.map DenunciaRow.status ++ [recNoStatus.status.getD "Pendente"]
    ∧ ∀ eid ca o t ru nu ba zo la lo de qr,
        ((handle_form_submit_record eid ca o t ru nu ba zo la lo de qr).status.getD
          "Pendente") = "Pendente" :=
  C1_amended_status emptyDB recNoStatus dbAfterNoStatus rfl

/-! ### Claim C2 -/

/-- A complaint row with id 9999. -/
def row9999 : DenunciaRow :=
  { insertedRow emptyDB recNoStatus with id := 9999, external_id := "9999/2025" }

/-- A database whose highest complaint id is 9999. -/
def db9999 : DB :=
  { denuncias := [row9999], nextId := 10000, recurrences := [], users := [] }

/-- C2, as stated, is false on the code: the `04d` format pads to a minimum
of four digits but does not truncate, so once the maximum id reaches 9999
the preview has a five-digit numeric part and no longer matches the
four-digits-slash-four-digits shape. -/
theorem C2_counterexample :
    matchesExtId (generate_external_id db9999 2025) = false := by decide

/-- C2 (amended): `generate_external_id` formats `max(id) + 1` (0 for the
empty table) zero-padded to a MINIMUM of four digits, then a slash and the
current year; the result matches the four-digits-slash-four-digits shape
whenever `max(id) + 1` is at most 9999 and the year has four digits; and
after a successful insert assigned the sequence id `N` (all prior ids being
below it), `max(id)` is `N`, so the following preview is derived from the
rows, not from a separate counter. -/
theorem C2_amended :
    ∀ (db : DB) (year : Nat),
      (db.denuncias = [] → maxIdOf db = 0)
      ∧ generate_external_id db year
          = String.mk (pad4To (toDigits (maxIdOf db + 1)) ++ '/' :: toDigits year)
      ∧ (maxIdOf db + 1 ≤ 9999 → 1000 ≤ year → year ≤ 9999 →
          matchesExtId (generate_external_id db year) = true)
      ∧ (∀ record db', insert_denuncia db record = Except.ok db' →
          (∀ r ∈ db.denuncias, r.id < db.nextId) → maxIdOf db' = db.nextId) := by
  intro db year
  refine ⟨?_, rfl, ?_, ?_⟩
  · intro h
    unfold maxIdOf
    rw [h]
    rfl
  · intro h1 h2 h3
    show matchesExtId (String.mk (pad4To (toDigits (maxIdOf db + 1)) ++ '/' :: toDigits year)) = true
    apply matchesExtId_of
    · exact pad4To_length _ (toDigits_len_le 3 _ (by omega))
    · exact Nat.le_antisymm (toDigits_len_le 3 year (by omega))
        (toDigits_len_ge 3 year (by omega))
    · exact pad4To_digits _ (toDigits_digits _)
    · exact toDigits_digits year
  · intro record db' h hinv
    rw [insert_denuncia_ok_eq db record db' h]
    unfold maxIdOf
    simp only [List.map_append, List.foldl_append, List.map_cons, List.map_nil,
      List.foldl_cons, List.foldl_nil, insertedRow]
    apply Nat.max_eq_right
    apply foldl_max_le _ 0 _ (Nat.zero_le _)
    intro x hx
    rcases List.mem_map.mp hx with ⟨r, hr, rfl⟩
    exact Nat.le_of_lt (hinv r hr)

/-- A complaint row with id 5. -/
def row5 : DenunciaRow :=
  { insertedRow emptyDB recNoStatus with id := 5, external_id := "0005/2025" }

/-- A database with one complaint of id 5 and the sequence at 6. -/
def dbW : DB :=
  { denuncias := [row5], nextId := 6, recurrences := [], users := [] }

/-- A fresh record to insert into `dbW`. -/
def recW : DenunciaRecord := { recNoStatus with external_id := "0006/2025" }

/-- The state after inserting `recW` into `dbW`. -/
def dbW' : DB :=
  { dbW with
    denuncias := dbW.denuncias ++ [insertedRow dbW recW],
    nextId := dbW.nextId + 1 }

/-- Closed instance of `C2_amended`: on a table with maximum id 5 the
preview is well-shaped, and after the insert that assigns id 6 the id
maximum read back is 6. -/
theorem C2_witness :
    matchesExtId (generate_external_id dbW 2025) = true
    ∧ maxIdOf dbW' = dbW.nextId := by
  constructor
  · exact (C2_amended dbW 2025).2.2.1 (by decide) (by decide) (by decide)
  · exact (C2_amended dbW 2025).2.2.2 recW dbW' (by rfl) (by decide)

/-! ### Claim C4 -/

/-- C4: `delete_denuncia N` removes exactly the complaint rows whose id is
N, and (through the spec-modelled cascade of the recurrence foreign key)
exactly the recurrence rows whose complaint_id is N, so no recurrence of N
remains after the delete. -/
theorem C4_delete_cascade :
    ∀ (db : DB) (N : Nat),
      (∀ r : DenunciaRow, r ∈ (delete_denuncia db N).denuncias ↔
        r ∈ db.denuncias ∧ r.id ≠ N)
      ∧ (∀ q : Recurrence, q ∈ (delete_denuncia db N).recurrences ↔
        q ∈ db.recurrences ∧ q.complaint_id ≠ N) := by
  intro db N
  constructor
  · intro r
    unfold delete_denuncia
    simp [List.mem_filter]
  · intro q
    unfold delete_denuncia cascadeRecurrences
    simp [List.mem_filter]

/-! ### Claim C7 -/

/-- C7: `add_user` on an existing username returns false and leaves the
store — in particular the stored password hash — untouched; on a fresh
username it appends the user with the newly hashed password, a false admin
flag, and returns true. -/
theorem C7_add_user :
    ∀ (db : DB) (u p n : String),
      (db.users.any (fun x => x.username == u) = true →
        add_user db u p n = (db, false))
      ∧ (db.users.any (fun x => x.username == u) = false →
        add_user db u p n =
          ({ db with users := db.users ++
              [{ username := u, password := hash_password p,
                 full_name := n, is_admin := false }] }, true)) := by
  intro db u p n
  constructor
  · intro h
    unfold add_user
    rw [h]
    rfl
  · intro h
    unfold add_user
    rw [h]
    rfl

/-- A user store holding one user alice. -/
def dbUsers : DB :=
  { emptyDB with users := [{ username := "alice", password := "stored-hash-1",
                             full_name := "Alice", is_admin := false }] }

/-- Closed instance of `C7_add_user`: re-creating alice fails, returns
false and leaves her stored hash unchanged; creating bob succeeds. -/
theorem C7_witness :
    add_user dbUsers "alice" "pw2" "Alice Again" = (dbUsers, false)
    ∧ add_user dbUsers "bob" "pw" "Bob" =
        ({ dbUsers with users := dbUsers.users ++
            [{ username := "bob", password := hash_password "pw",
               full_name := "Bob", is_admin := false }] }, true) :=
  ⟨(C7_add_user dbUsers "alice" "pw2" "Alice Again").1 (by decide),
   (C7_add_user dbUsers "bob" "pw" "Bob").2 (by decide)⟩

/-! ### Claim C10 -/

/-- C10: when no complaint row has id N, `update_denuncia_status` and
`delete_denuncia` complete (they are total, no exception is raised and
none is reported) and the complaints table is unchanged: the not-found
case is a silent no-op. -/
theorem C10_missing_id_noop :
    ∀ (db : DB) (N : Nat) (s : String),
      (∀ r ∈ db.denuncias, r.id ≠ N) →
      update_denuncia_status db N s = db
      ∧ (delete_denuncia db N).denuncias = db.denuncias := by
  intro db N s h
  constructor
  · unfold update_denuncia_status
    have h2 : ∀ r ∈ db.denuncias,
        (if r.id = N then { r with status := s } else r) = id r :=
      fun r hr => by simp [if_neg (h r hr)]
    rw [List.map_congr_left h2, List.map_id]
  · unfold delete_denuncia
    rw [List.filter_eq_self.mpr]
    intro r hr
    simp [h r hr]

/-- Closed instance of `C10_missing_id_noop`: with only a row of id 5 in
storage, touching id 7 changes nothing. -/
theorem C10_witness :
    update_denuncia_status dbW 7 "Concluída" = dbW
    ∧ (delete_denuncia dbW 7).denuncias = dbW.denuncias :=
  C10_missing_id_noop dbW 7 "Concluída" (by decide)

/-! ### Claim C8 -/

theorem find_map_same (l : List DenunciaRow) (N : Nat) (g : DenunciaRow → DenunciaRow)
    (hg : ∀ r, (g r).id = r.id) :
    (l.map fun r => if r.id = N then g r else r).find? (fun r => r.id == N)
      = (l.find? (fun r => r.id == N)).map g := by
  induction l with
  | nil => rfl
  | cons r rs ih =>
    by_cases h : r.id = N
    · simp [List.find?_cons, if_pos h, hg r, h]
    · simp only [List.map_cons, List.find?_cons, if_neg h]
      have hr : (r.id == N) = false := by simp [h]
      rw [hr]
      exact ih

theorem find_map_other (l : List DenunciaRow) (N M : Nat) (g : DenunciaRow → DenunciaRow)
    (hg : ∀ r, (g r).id = r.id) (hMN : M ≠ N) :
    (l.map fun r => if r.id = N then g r else r).find? (fun r => r.id == M)
      = l.find? (fun r => r.id == M) := by
  have hNM : N ≠ M := Ne.symm hMN
  induction l with
  | nil => rfl
  | cons r rs ih =>
    simp only [List.map_cons, List.find?_cons]
    by_cases h : r.id = N
    · rw [if_pos h]
      have h1 : ((g r).id == M) = false := by
        rw [hg r, h]
        simp [hNM]
      have h2 : (r.id == M) = false := by
        rw [h]
        simp [hNM]
      rw [h1, h2]
      exact ih
    · rw [if_neg h]
      by_cases hm : r.id = M
      · simp [hm]
      · have hm2 : (r.id == M) = false := by simp [hm]
        rw [hm2]
        exact ih

/-- C8: `update_denuncia_status` changes only the status column of the
rows with the given id — a following fetch returns the same row with only
its status replaced, and fetching any other id is unchanged; and
`update_denuncia_full` replaces exactly the eleven editable columns,
leaving id, external_id and created_at of the row and every other row
unchanged. -/
theorem C8_update_frame :
    ∀ (db : DB) (N M : Nat) (s : String) (row : UpdateRow),
      fetch_denuncia_by_id (update_denuncia_status db N s) N
        = (fetch_denuncia_by_id db N).map (setStatusRow s)
      ∧ (M ≠ N → fetch_denuncia_by_id (update_denuncia_status db N s) M
        = fetch_denuncia_by_id db M)
      ∧ fetch_denuncia_by_id (update_denuncia_full db N row) N
        = (fetch_denuncia_by_id db N).map (applyFullUpdate row)
      ∧ (M ≠ N → fetch_denuncia_by_id (update_denuncia_full db N row) M
        = fetch_denuncia_by_id db M) := by
  intro db N M s row
  refine ⟨?_, ?_, ?_, ?_⟩
  · exact find_map_same db.denuncias N (setStatusRow s) (fun r => rfl)
  · intro hMN
    exact find_map_other db.denuncias N M (setStatusRow s) (fun r => rfl) hMN
  · exact find_map_same db.denuncias N (applyFullUpdate row) (fun r => rfl)
  · intro hMN
    exact find_map_other db.denuncias N M (applyFullUpdate row) (fun r => rfl) hMN

/-- An update payload used in the closed instance. -/
def rowUpd : UpdateRow :=
  { origem := "Ouvidoria", tipo := "Ambiental", rua := "Rua Nova", numero := "22"
    bairro := "SALGADO", zona := "SUL", latitude := "-8.28", longitude := "-35.97"
    descricao := "Atualizada", quem_recebeu := "PATRICIA MIRELLY BEZERRA CAMPOS - 000.332"
    status := "Em monitoramento" }

/-- Closed instance of `C8_update_frame` on the one-row database `dbW`
(row id 5), with the frame checked at the distinct id 7. -/
theorem C8_witness :
    fetch_denuncia_by_id (update_denuncia_status dbW 5 "Concluída") 5
      = (fetch_denuncia_by_id dbW 5).map (setStatusRow "Concluída")
    ∧ fetch_denuncia_by_id (update_denuncia_status dbW 5 "Concluída") 7
      = fetch_denuncia_by_id dbW 7
    ∧ fetch_denuncia_by_id (update_denuncia_full dbW 5 rowUpd) 5
      = (fetch_denuncia_by_id dbW 5).map (applyFullUpdate rowUpd)
    ∧ fetch_denuncia_by_id (update_denuncia_full dbW 5 rowUpd) 7
      = fetch_denuncia_by_id dbW 7 :=
  ⟨(C8_update_frame dbW 5 7 "Concluída" rowUpd).1,
   (C8_update_frame dbW 5 7 "Concluída" rowUpd).2.1 (by decide),
   (C8_update_frame dbW 5 7 "Concluída" rowUpd).2.2.1,
   (C8_update_frame dbW 5 7 "Concluída" rowUpd).2.2.2 (by decide)⟩

/-! ### Claims C3, C5, C6 -/

/-- The complaint record of the rendering scenario, as the intake form
builds it. -/
def rec3 : DenunciaRecord :=
  handle_form_submit_record "0001/2025" "2025-01-02 09:00:00" "Telefone" "Urbana"
    "Rua do Sol" "10" "CENTENÁRIO" "NORTE" "" "" "Lixo acumulado"
    "RAIANY NAYARA DE LIMA - 000.362"

/-- A recurrence of complaint 1 from the Ouvidoria. -/
def recur1 : Recurrence :=
  { id := 1, complaint_id := 1, created_at := "2025-01-03 08:00:00", source := "Ouvidoria", description := "Voltou a ocorrer" }

/-- A recurrence of complaint 1 from the Administração. -/
def recur2 : Recurrence :=
  { id := 2, complaint_id := 1, created_at := "2025-01-04 08:00:00", source := "Administração", description := "Nova cobrança" }

/-- Storage holding the scenario complaint and its two appended
recurrences. -/
def db3 : DB :=
  { denuncias := [insertedRow emptyDB rec3], nextId := 2,
    recurrences := [recur1, recur2], users := [] }

/-- C3, as stated, is false on the code: the renderer receives only the
complaint record — it has no recurrence input at all — and issues exactly
one `add_page`, so with two recurrences stored the claim predicts 3 pages
while the produced document has 1. -/
theorem C3_counterexample :
    db3.recurrences.length = 2
    ∧ pdfPages (create_pdf_from_record 0 rec3) ≠ 1 + db3.recurrences.length := by
  constructor
  · rfl
  · decide

/-- C3 (amended): every document the renderer produces consists of exactly
one explicitly added page, carrying only the complaint; no recurrence pages
exist because the renderer takes no recurrences. -/
theorem C3_single_page :
    ∀ (now : Nat) (record : DenunciaRecord) (items : List PdfItem),
      create_pdf_from_record now record = Except.ok items →
      items.countP isAddPage = 1 := by
  intro now record items h
  unfold create_pdf_from_record at h
  cases hst : record.status with
  | none => rw [hst] at h; exact absurd h (by simp)
  | some st =>
    rw [hst] at h
    simp only at h
    split at h
    · injection h with h
      subst h
      rfl
    · exact absurd h (by simp)

/-- Closed instance of `C3_single_page` at the scenario record. -/
theorem C3_witness :
    (pdfItems rec3 "Pendente").countP isAddPage = 1 :=
  C3_single_page 0 rec3 (pdfItems rec3 "Pendente") (by rfl)

/-- C5: rendering is deterministic — the command stream is a function of
the record alone; the ambient clock parameter has no influence because the
renderer never reads it, so two renders of identical input are
byte-identical. -/
theorem C5_render_deterministic :
    ∀ (now1 now2 : Nat) (record : DenunciaRecord),
      create_pdf_from_record now1 record = create_pdf_from_record now2 record :=
  fun _ _ _ => rfl

/-- The scenario record with a description the latin-1 character set of
the core font cannot encode. -/
def recBad : DenunciaRecord :=
  { rec3 with descricao := "Entulho na calçada — fogo 🔥" }

/-- C6, as stated, is false on the code: a description outside latin-1
makes the render raise (no document at all); no fixed warning string is
substituted. -/
theorem C6_counterexample :
    create_pdf_from_record 0 recBad = Except.error () := by rfl

/-- C6 (amended): when the description cannot be encoded by the latin-1
character set of the document font, the render fails with an exception
(surfaced by the callers as an error message) instead of substituting a
placeholder; only an empty description receives the fixed fallback text. -/
theorem C6_render_raises :
    ∀ (now : Nat) (record : DenunciaRecord),
      latin1String record.descricao = false →
      create_pdf_from_record now record = Except.error () := by
  intro now record h
  unfold create_pdf_from_record
  cases hst : record.status with
  | none => rfl
  | some st =>
    simp only
    have hne : record.descricao ≠ "" := by
      intro hh
      rw [hh] at h
      exact absurd h (by decide)
    have hdesc : (if record.descricao = "" then "Sem descrição." else record.descricao)
        = record.descricao := if_neg hne
    have hall : ((pdfItems record st).all fun i => latin1String (itemText i)) = false := by
      unfold pdfItems pdfHeaderItems
      simp only [List.cons_append, List.nil_append, List.all_cons, itemText, hdesc, h]
      simp
    simp [hall]

/-- Closed instance of `C6_render_raises` at the bad-description record. -/
theorem C6_witness :
    latin1String recBad.descricao = false
    ∧ create_pdf_from_record 0 recBad = Except.error () :=
  ⟨by decide, C6_render_raises 0 recBad (by decide)⟩

/-! ### Claim C9 -/

theorem seriesAnd_map (l : List DenunciaRow) (p q : DenunciaRow → Bool) :
    seriesAnd (l.map p) (l.map q) = l.map fun r => p r && q r := by
  induction l with
  | nil => rfl
  | cons r rs ih =>
    simp only [List.map_cons, seriesAnd, List.zipWith_cons_cons]
    unfold seriesAnd at ih
    rw [ih]

theorem seriesAnd_replicate_true (l : List DenunciaRow) (q : DenunciaRow → Bool) :
    seriesAnd (List.replicate l.length true) (l.map q) = l.map q := by
  induction l with
  | nil => rfl
  | cons r rs ih =>
    simp only [List.length_cons, List.replicate_succ, List.map_cons, seriesAnd,
      List.zipWith_cons_cons]
    unfold seriesAnd at ih
    rw [ih]
    rfl

theorem selectByMask_map (l : List DenunciaRow) (p : DenunciaRow → Bool) :
    selectByMask l (l.map p) = l.filter p := by
  induction l with
  | nil => rfl
  | cons r rs ih =>
    simp only [List.map_cons, selectByMask, List.filter_cons]
    cases hp : p r <;> simp [hp, ih]

theorem historicoMask_eq (rows : List DenunciaRow) (q_ext q_status q_text : String) :
    historicoMask rows q_ext q_status q_text
      = rows.map (historicoPred q_ext q_status q_text) := by
  unfold historicoMask historicoPred
  by_cases h1 : q_ext = "" <;> by_cases h2 : q_status = "" <;>
    by_cases h3 : q_status = "Todos" <;> by_cases h4 : q_text = "" <;>
    simp [h1, h2, h3, h4, seriesAnd_map, seriesAnd_replicate_true, Bool.and_assoc]

/-- C9 (amended): the Historico search equals the newest-first listing
filtered by the conjunction of the supplied filters — each filter
independently optional, an absent one imposing no constraint, the baseline
order preserved and the baseline itself sorted newest internal id first;
with only the status filter Concluída it returns exactly the rows with
that status.  The pattern filters, however, are regular-expression
searches (`str.contains` with the pandas default `regex=True`), which
coincide with substring matching only for metacharacter-free patterns. -/
theorem C9_search_filters :
    ∀ (db : DB) (q_ext q_status q_text : String),
      historicoSearch db q_ext q_status q_text
        = (fetch_all_denuncias db).filter (historicoPred q_ext q_status q_text)
      ∧ historicoSearch db "" "Concluída" ""
        = (fetch_all_denuncias db).filter (fun r => r.status == "Concluída")
      ∧ List.Sorted newestFirst (fetch_all_denuncias db) := by
  intro db q_ext q_status q_text
  refine ⟨?_, ?_, ?_⟩
  · unfold historicoSearch
    rw [historicoMask_eq, selectByMask_map]
  · unfold historicoSearch
    rw [historicoMask_eq, selectByMask_map]
    apply List.filter_congr
    intro r hr
    simp [historicoPred]
  · exact List.sorted_insertionSort newestFirst db.denuncias

/-- A stored complaint whose description is the literal text abc. -/
def rowAbc : DenunciaRow := { insertedRow emptyDB rec3 with descricao := "abc" }

/-- A database holding only `rowAbc`. -/
def dbSearch : DB := { denuncias := [rowAbc], nextId := 2, recurrences := [], users := [] }

/-- C9, as stated, is false on the code: `str.contains` defaults to
`regex=True`, so the description filter is a regular-expression search,
not a substring match — the pattern a.c selects the row whose description
is abc although a.c is not a substring of abc. -/
theorem C9_counterexample :
    historicoSearch dbSearch "" "Todos" "a.c"
      ≠ (fetch_all_denuncias dbSearch).filter (fun r => specSubstring "a.c" r.descricao) := by
  decide
